import Mathlib

/-!
Verification of the `alb-lambda-http2-header-sanitizer` repository.

The repository holds two Python request handlers:

* `src/ec2.py` — a Flask route `root` that answers every request with a
  fixed body, MIME type `text/plain` and the two headers
  `Connection: keep-alive` and `Keep-Alive: timeout=72`.
* `src/lambda.py` — a Lambda `handler(event, context)` that reads the
  optional `queryStringParameters` mapping of the event (absent or null
  resolves to the empty mapping), reads the keys `connection` and
  `keep-alive` with default `"true"`, and includes the header
  `Connection: keep-alive` (resp. `Keep-Alive: timeout=72`) exactly when
  the corresponding value is the literal string `"true"`.

The development embeds both handlers shallowly.  Python dictionaries of
string keys become association lists (`List (String × String)` or lists
of heap values), looked up with `List.lookup`, which returns the first
binding of a key and hence matches the unique-key semantics of a Python
dict.  The value stored under `queryStringParameters` can be null, so it
is embedded as `Option QVal` (`Option.none` = field absent,
`QVal.qnull` = field present and null, `QVal.qdict m` = a string→string
mapping).  A second, heap-passing embedding `handlerH` makes the
allocations and the two `headers.update` mutations of `src/lambda.py`
explicit, in order to state that the handler never writes to any object
that existed before the call.
-/

/-- The value stored under the `queryStringParameters` key of an event:
either JSON null or a string→string mapping. -/
inductive QVal where
  | qnull : QVal
  | qdict : List (String × String) → QVal
deriving DecidableEq, Repr

/-- A Lambda invocation event.  The handler only ever reads the
`queryStringParameters` field (`Option.none` models the field being
absent from the event); `rest` carries every other field of the event
object, which the handler never consults. -/
structure Event where
  queryStringParameters : Option QVal
  rest : List (String × String)
deriving DecidableEq, Repr

/-- The result object of `handler` in `src/lambda.py`: a status code, a
header mapping and a body string. -/
structure Response where
  statusCode : Nat
  headers : List (String × String)
  body : String
deriving DecidableEq, Repr

/-- Shallow embedding of `handler` in `src/lambda.py`.

```python
def handler(event, context):
    enableConnection = event.get("queryStringParameters", {})
    if enableConnection is None:
        enableConnection = {}
    connection = enableConnection.get("connection", "true")
    keepAlive = enableConnection.get("keep-alive", "true")
    headers = {}
    if connection == "true":
        headers.update({"Connection": "keep-alive"})
    if keepAlive == "true":
        headers.update({"Keep-Alive": "timeout=72"})
    return {"statusCode": 200, "headers": headers,
            "body": "Successful request to Lambda without web adapter (python)"}
```

The `context` argument is never read, so the embedding is polymorphic in
its type. -/
def handler {α : Type} (event : Event) (context : α) : Response :=
  let enableConnection := event.queryStringParameters.getD (QVal.qdict [])
  let enableConnection :=
    if enableConnection = QVal.qnull then QVal.qdict [] else enableConnection
  let m := match enableConnection with
    | QVal.qdict m => m
    | QVal.qnull => []
  let connection := (m.lookup "connection").getD "true"
  let keepAlive := (m.lookup "keep-alive").getD "true"
  let headers : List (String × String) := []
  let headers :=
    if connection = "true" then headers ++ [("Connection", "keep-alive")] else headers
  let headers :=
    if keepAlive = "true" then headers ++ [("Keep-Alive", "timeout=72")] else headers
  { statusCode := 200
    headers := headers
    body := "Successful request to Lambda without web adapter (python)" }

/-- The query-parameter mapping after the resolution steps of lines 2–4
of `src/lambda.py`: an absent or null `queryStringParameters` field
resolves to the empty mapping. -/
def resolvedParams (event : Event) : List (String × String) :=
  match event.queryStringParameters with
  | Option.none => []
  | Option.some QVal.qnull => []
  | Option.some (QVal.qdict m) => m

/-- The `connection` value read on line 5 of `src/lambda.py`. -/
def connectionValue (event : Event) : String :=
  ((resolvedParams event).lookup "connection").getD "true"

/-- The `keep-alive` value read on line 6 of `src/lambda.py`. -/
def keepAliveValue (event : Event) : String :=
  ((resolvedParams event).lookup "keep-alive").getD "true"

/-- The response object of `root` in `src/ec2.py`: status, body, the
explicitly set headers, and the MIME type. -/
structure FlaskResponse where
  status : Nat
  body : String
  headers : List (String × String)
  mimetype : String
deriving DecidableEq, Repr

/-- Shallow embedding of `root` in `src/ec2.py`.

```python
@app.route("/")
def root():
    return Response("Successful request to EC2 (python)",
                    headers={"Connection": "keep-alive", "Keep-Alive": "timeout=72"},
                    mimetype="text/plain")
```

The function inspects no part of the inbound request, so the embedding
takes the request as a value of an arbitrary type and ignores it
(Flask's `Response` defaults the status to 200). -/
def root {α : Type} (request : α) : FlaskResponse :=
  { status := 200
    body := "Successful request to EC2 (python)"
    headers := [("Connection", "keep-alive"), ("Keep-Alive", "timeout=72")]
    mimetype := "text/plain" }

/-! ## Heap-passing embedding of `src/lambda.py`

Python objects live on a heap and dictionaries are mutable, so claims
about exception freedom and about the absence of mutation are stated
over a second embedding in which every dict literal of the source
allocates at a fresh address and every `dict.update` call is an
in-place store.  A run that would raise an uncaught Python exception
(an `AttributeError` from calling `.get` on a non-dict) returns
`Option.none`. -/

/-- Address of a heap-allocated Python object. -/
abbrev Addr := Nat

/-- A Python value held in a dict entry or a variable: `None`, a
string, an integer, or a reference to a heap-allocated object. -/
inductive HVal where
  | vnone : HVal
  | vstr : String → HVal
  | vint : Int → HVal
  | vref : Addr → HVal
deriving DecidableEq, Repr

/-- A heap-allocated object.  The two handlers only ever allocate
dictionaries. -/
inductive Obj where
  | odict : List (String × HVal) → Obj
deriving DecidableEq, Repr

/-- The heap: a finite mapping from addresses to objects. -/
abbrev Heap := List (Addr × Obj)

/-- Dereference an address. -/
def heapGet (h : Heap) (a : Addr) : Option Obj :=
  h.lookup a

/-- An address strictly greater than every address bound in the heap;
allocation of a dict literal binds this address. -/
def freshAddr (h : Heap) : Addr :=
  (h.map Prod.fst).foldr max 0 + 1

/-- In-place store at an existing address, as performed by
`dict.update` on its receiver. -/
def heapSet (h : Heap) (a : Addr) (o : Obj) : Heap :=
  h.map fun p => if p.1 = a then (a, o) else p

/-- Pure entry update of a dict's association list: `d[k] = v`
semantics, keeping insertion order when the key is already bound. -/
def dictSet (entries : List (String × HVal)) (k : String) (v : HVal) :
    List (String × HVal) :=
  if entries.any (fun p => p.1 = k) then
    entries.map fun p => if p.1 = k then (k, v) else p
  else entries ++ [(k, v)]

/-- `d.update({k: v})` on the dict at address `a`: mutate it in place;
on a dangling or non-dict address nothing happens (unreachable in the
handler, where `a` is always the freshly allocated `headers` dict). -/
def dictUpdateAt (h : Heap) (a : Addr) (k : String) (v : HVal) : Heap :=
  match heapGet h a with
  | Option.some (Obj.odict entries) => heapSet h a (Obj.odict (dictSet entries k v))
  | _ => h

/-- Heap-passing embedding of `handler` in `src/lambda.py`.  The event
is the dict at `eventA`.  Each dict literal of the source (`{}` twice,
the `headers` dict, the argument dicts of `update` are folded into
`dictUpdateAt`, and the result dict) allocates at the address that is
fresh for the heap at that program point.  The result is the final
heap together with the address of the returned dict, or `Option.none`
when the Python code would raise (event not a dict, or
`queryStringParameters` holding a non-null non-dict value, on which
`.get` raises `AttributeError`). -/
def handlerH (h : Heap) (eventA : Addr) : Option (Heap × Addr) :=
  match heapGet h eventA with
  | Option.some (Obj.odict ev) =>
    let defaultA := freshAddr h
    let h₁ := (defaultA, Obj.odict []) :: h
    let enableConnection := (ev.lookup "queryStringParameters").getD (HVal.vref defaultA)
    let nullA := freshAddr h₁
    let h₂ := if enableConnection = HVal.vnone then (nullA, Obj.odict []) :: h₁ else h₁
    let enableConnection :=
      if enableConnection = HVal.vnone then HVal.vref nullA else enableConnection
    match enableConnection with
    | HVal.vref qa =>
      match heapGet h₂ qa with
      | Option.some (Obj.odict q) =>
        let connection := (q.lookup "connection").getD (HVal.vstr "true")
        let keepAlive := (q.lookup "keep-alive").getD (HVal.vstr "true")
        let headersA := freshAddr h₂
        let h₃ := (headersA, Obj.odict []) :: h₂
        let h₄ := if connection = HVal.vstr "true" then
            dictUpdateAt h₃ headersA "Connection" (HVal.vstr "keep-alive") else h₃
        let h₅ := if keepAlive = HVal.vstr "true" then
            dictUpdateAt h₄ headersA "Keep-Alive" (HVal.vstr "timeout=72") else h₄
        let resultA := freshAddr h₅
        let h₆ := (resultA, Obj.odict
          [("statusCode", HVal.vint 200),
           ("headers", HVal.vref headersA),
           ("body", HVal.vstr "Successful request to Lambda without web adapter (python)")]) :: h₅
        Option.some (h₆, resultA)
      | _ => Option.none
    | _ => Option.none
  | _ => Option.none

/-! ## General lemmas -/

/-- Evaluation lemma: `handler` returns status 200, the fixed body, and
the headers determined by `connectionValue` and `keepAliveValue`. -/
theorem handler_eq {α : Type} (event : Event) (context : α) :
    handler event context =
      { statusCode := 200
        headers :=
          (if connectionValue event = "true"
            then [("Connection", "keep-alive")] else []) ++
          (if keepAliveValue event = "true"
            then [("Keep-Alive", "timeout=72")] else [])
        body := "Successful request to Lambda without web adapter (python)" } := by
  rcases event with ⟨q, rest⟩
  rcases q with _ | (_ | m) <;>
      simp [handler, connectionValue, keepAliveValue, resolvedParams] <;>
    split_ifs <;> simp

theorem heapGet_cons_self (h : Heap) (a : Addr) (o : Obj) :
    heapGet ((a, o) :: h) a = Option.some o := by
  simp [heapGet, List.lookup]

theorem heapGet_cons_ne (h : Heap) {a b : Addr} (o : Obj) (hab : a ≠ b) :
    heapGet ((b, o) :: h) a = heapGet h a := by
  have hb : (a == b) = false := by simp [hab]
  simp [heapGet, List.lookup, hb]

theorem lookup_lt_freshAddr {h : Heap} {a : Addr} {o : Obj}
    (ho : heapGet h a = Option.some o) : a < freshAddr h := by
  induction h with
  | nil => simp [heapGet, List.lookup] at ho
  | cons p t ih =>
    rcases p with ⟨k, ob⟩
    by_cases hk : a = k
    · subst hk
      have : a ≤ max a ((t.map Prod.fst).foldr max 0) := le_max_left _ _
      simpa [freshAddr, Nat.lt_succ_iff] using this
    · rw [heapGet_cons_ne t ob hk] at ho
      have h1 : a < freshAddr t := ih ho
      have h2 : (t.map Prod.fst).foldr max 0 ≤
          max k ((t.map Prod.fst).foldr max 0) := le_max_right _ _
      simp only [freshAddr, Nat.lt_succ_iff] at h1 ⊢
      simpa [freshAddr] using le_trans h1 h2

theorem ne_freshAddr {h : Heap} {a : Addr} {o : Obj}
    (ho : heapGet h a = Option.some o) : a ≠ freshAddr h :=
  Nat.ne_of_lt (lookup_lt_freshAddr ho)

theorem heapGet_heapSet_ne {h : Heap} {a b : Addr} (o : Obj) (hab : a ≠ b) :
    heapGet (heapSet h b o) a = heapGet h a := by
  induction h with
  | nil => rfl
  | cons p t ih =>
    rcases p with ⟨k, ob⟩
    simp only [heapSet, List.map_cons] at ih ⊢
    by_cases hk : k = b
    · subst hk
      have hhead : (if ((k, ob) : Addr × Obj).1 = k then (k, o) else (k, ob)) = (k, o) :=
        if_pos rfl
      rw [hhead, heapGet_cons_ne _ _ hab, heapGet_cons_ne _ _ hab]
      exact ih
    · have hhead : (if ((k, ob) : Addr × Obj).1 = b then (b, o) else (k, ob)) = (k, ob) :=
        if_neg hk
      rw [hhead]
      by_cases hak : a = k
      · subst hak
        rw [heapGet_cons_self, heapGet_cons_self]
      · rw [heapGet_cons_ne _ _ hak, heapGet_cons_ne _ _ hak]
        exact ih

theorem heapGet_dictUpdateAt_ne {h : Heap} {a b : Addr} (k : String) (v : HVal)
    (hab : a ≠ b) : heapGet (dictUpdateAt h b k v) a = heapGet h a := by
  unfold dictUpdateAt
  rcases hg : heapGet h b with _ | ⟨entries⟩
  · rfl
  · rcases hg2 : entries with ⟨es⟩
    exact heapGet_heapSet_ne _ hab

theorem heapGet_freshAddr (h : Heap) : heapGet h (freshAddr h) = Option.none := by
  rcases hg : heapGet h (freshAddr h) with _ | o
  · rfl
  · exact absurd (lookup_lt_freshAddr hg) (lt_irrefl _)

theorem heapSet_cons_self (h : Heap) (a : Addr) (o o' : Obj) :
    heapSet ((a, o) :: h) a o' = (a, o') :: heapSet h a o' := by
  simp [heapSet]

theorem heapSet_eq_of_not_bound {h : Heap} {a : Addr} (o : Obj)
    (ha : heapGet h a = Option.none) : heapSet h a o = h := by
  induction h with
  | nil => rfl
  | cons p t ih =>
    rcases p with ⟨k, ob⟩
    by_cases hk : k = a
    · subst hk
      rw [heapGet_cons_self] at ha
      cases ha
    · have hak : a ≠ k := fun hh => hk hh.symm
      rw [heapGet_cons_ne t ob hak] at ha
      have hhead : (if ((k, ob) : Addr × Obj).1 = a then (a, o) else (k, ob)) = (k, ob) :=
        if_neg hk
      simp only [heapSet, List.map_cons] at ih ⊢
      rw [hhead, ih ha]

theorem dictUpdateAt_alloc (h : Heap) (entries : List (String × HVal))
    (k : String) (v : HVal) :
    dictUpdateAt ((freshAddr h, Obj.odict entries) :: h) (freshAddr h) k v =
      (freshAddr h, Obj.odict (dictSet entries k v)) :: h := by
  unfold dictUpdateAt
  rw [heapGet_cons_self]
  show heapSet ((freshAddr h, Obj.odict entries) :: h) (freshAddr h)
      (Obj.odict (dictSet entries k v)) = _
  rw [heapSet_cons_self, heapSet_eq_of_not_bound _ (heapGet_freshAddr h)]

theorem heapGet_alloc_preserve {h : Heap} {a : Addr} {o : Obj}
    (ho : heapGet h a = Option.some o) (o' : Obj) :
    heapGet ((freshAddr h, o') :: h) a = Option.some o := by
  rw [heapGet_cons_ne _ _ (ne_freshAddr ho)]
  exact ho

theorem heapGet_ite (c : Prop) [Decidable c] {X Y : Heap} {a : Addr} {o : Obj}
    (hx : heapGet X a = Option.some o) (hy : heapGet Y a = Option.some o) :
    heapGet (if c then X else Y) a = Option.some o := by
  split
  · exact hx
  · exact hy

theorem preserve_update_ite (c : Prop) [Decidable c] {X : Heap} {b : Addr}
    (k : String) (v : HVal) {a : Addr} {o : Obj} (hab : a ≠ b)
    (hX : heapGet X a = Option.some o) :
    heapGet (if c then dictUpdateAt X b k v else X) a = Option.some o := by
  refine heapGet_ite _ ?_ hX
  rw [heapGet_dictUpdateAt_ne _ _ hab]
  exact hX

/-! ## Claim theorems -/

/-- Claim C1: for every invocation event of the dynamic handler whose
`queryStringParameters` mapping contains the key `connection`, the
response headers contain `Connection: keep-alive` if and only if the
value of `connection` equals the exact string `"true"`; for every
other string value the `Connection` header is absent. -/
theorem C1_connection_header_iff {α : Type} (c : α) (e : Event)
    (m : List (String × String)) (v : String)
    (hq : e.queryStringParameters = Option.some (QVal.qdict m))
    (hv : m.lookup "connection" = Option.some v) :
    ("Connection", "keep-alive") ∈ (handler e c).headers ↔ v = "true" := by
  have hcv : connectionValue e = v := by
    simp [connectionValue, resolvedParams, hq, hv]
  rw [handler_eq]
  by_cases hv2 : v = "true" <;> by_cases hk : keepAliveValue e = "true" <;>
    simp [hcv, hv2, hk]

/-- Witness for C1 at the concrete event
`{queryStringParameters: {connection: "true"}}`. -/
theorem C1_connection_header_iff_witness :
    ("Connection", "keep-alive") ∈
      (handler { queryStringParameters := Option.some (QVal.qdict [("connection", "true")])
                 rest := [] } (0 : Nat)).headers :=
  (C1_connection_header_iff (0 : Nat) _ [("connection", "true")] "true" rfl
    (by decide)).mpr rfl

/-- Claim C2: for every invocation event of the dynamic handler whose
`queryStringParameters` mapping contains the key `keep-alive`, the
response headers contain `Keep-Alive: timeout=72` if and only if the
value equals the exact string `"true"`; in particular the event
`{queryStringParameters: {connection: "false", keep-alive: "true"}}`
yields status 200, exactly the `Keep-Alive` header, and the fixed
body. -/
theorem C2_keepalive_header_iff {α : Type} (c : α) (e : Event)
    (m : List (String × String)) (v : String)
    (hq : e.queryStringParameters = Option.some (QVal.qdict m))
    (hv : m.lookup "keep-alive" = Option.some v) :
    (("Keep-Alive", "timeout=72") ∈ (handler e c).headers ↔ v = "true") ∧
      handler { queryStringParameters :=
                  Option.some (QVal.qdict [("connection", "false"), ("keep-alive", "true")])
                rest := [] } c =
        { statusCode := 200
          headers := [("Keep-Alive", "timeout=72")]
          body := "Successful request to Lambda without web adapter (python)" } := by
  constructor
  · have hkv : keepAliveValue e = v := by
      simp [keepAliveValue, resolvedParams, hq, hv]
    rw [handler_eq]
    by_cases hv2 : v = "true" <;> by_cases hc2 : connectionValue e = "true" <;>
      simp [hkv, hv2, hc2]
  · rw [handler_eq]
    simp [connectionValue, keepAliveValue, resolvedParams, List.lookup]

/-- Witness for C2 at the concrete event
`{queryStringParameters: {keep-alive: "true"}}`. -/
theorem C2_keepalive_header_iff_witness :
    ("Keep-Alive", "timeout=72") ∈
      (handler { queryStringParameters := Option.some (QVal.qdict [("keep-alive", "true")])
                 rest := [] } (0 : Nat)).headers :=
  ((C2_keepalive_header_iff (0 : Nat) _ [("keep-alive", "true")] "true" rfl
    (by decide)).1).mpr rfl

/-- Claim C3: for every invocation event of the dynamic handler whose
`queryStringParameters` field is absent, null, or a mapping missing
both the `connection` and `keep-alive` keys, the missing keys default
to `"true"`, so the response headers include both
`Connection: keep-alive` and `Keep-Alive: timeout=72`. -/
theorem C3_missing_defaults_enabled {α : Type} (c : α) (e : Event)
    (h : e.queryStringParameters = Option.none ∨
      e.queryStringParameters = Option.some QVal.qnull ∨
      ∃ m, e.queryStringParameters = Option.some (QVal.qdict m) ∧
        m.lookup "connection" = Option.none ∧ m.lookup "keep-alive" = Option.none) :
    connectionValue e = "true" ∧ keepAliveValue e = "true" ∧
      ("Connection", "keep-alive") ∈ (handler e c).headers ∧
      ("Keep-Alive", "timeout=72") ∈ (handler e c).headers := by
  have hck : connectionValue e = "true" ∧ keepAliveValue e = "true" := by
    rcases h with h1 | h1 | ⟨m, hm, hcn, hkn⟩
    · simp [connectionValue, keepAliveValue, resolvedParams, h1]
    · simp [connectionValue, keepAliveValue, resolvedParams, h1]
    · simp [connectionValue, keepAliveValue, resolvedParams, hm, hcn, hkn]
  refine ⟨hck.1, hck.2, ?_, ?_⟩ <;> rw [handler_eq] <;> simp [hck.1, hck.2]

/-- Witness for C3 at the concrete event with no
`queryStringParameters` field. -/
theorem C3_missing_defaults_enabled_witness :
    ("Connection", "keep-alive") ∈
        (handler { queryStringParameters := Option.none, rest := [] } (0 : Nat)).headers ∧
      ("Keep-Alive", "timeout=72") ∈
        (handler { queryStringParameters := Option.none, rest := [] } (0 : Nat)).headers :=
  ⟨(C3_missing_defaults_enabled (0 : Nat)
      { queryStringParameters := Option.none, rest := [] } (Or.inl rfl)).2.2.1,
   (C3_missing_defaults_enabled (0 : Nat)
      { queryStringParameters := Option.none, rest := [] } (Or.inl rfl)).2.2.2⟩

/-- Claim C4: for every invocation event of the dynamic handler,
regardless of the query parameters, the result has status code 200 and
the fixed body string. -/
theorem C4_status_and_body {α : Type} (e : Event) (c : α) :
    (handler e c).statusCode = 200 ∧
      (handler e c).body = "Successful request to Lambda without web adapter (python)" := by
  rw [handler_eq]
  exact ⟨rfl, rfl⟩

/-- Claim C5: every inbound request yields from the static server
handler status 200, the fixed body, MIME type `text/plain`, and
exactly the headers `Connection: keep-alive` and
`Keep-Alive: timeout=72`, without inspecting any part of the
request. -/
theorem C5_root_constant_response {α : Type} (request : α) :
    root request =
      { status := 200
        body := "Successful request to EC2 (python)"
        headers := [("Connection", "keep-alive"), ("Keep-Alive", "timeout=72")]
        mimetype := "text/plain" } := rfl

/-- Claim C7: for every invocation event of the dynamic handler, the
headers mapping of the result has between 0 and 2 entries, is always a
sub-mapping of `{Connection: keep-alive, Keep-Alive: timeout=72}`, and
is empty exactly when both parameter values are strings other than
`"true"`. -/
theorem C7_headers_submapping {α : Type} (e : Event) (c : α) :
    (handler e c).headers ⊆
        [("Connection", "keep-alive"), ("Keep-Alive", "timeout=72")] ∧
      (handler e c).headers.length ≤ 2 ∧
      ((handler e c).headers = [] ↔
        (connectionValue e ≠ "true" ∧ keepAliveValue e ≠ "true")) := by
  rw [handler_eq]
  by_cases hc : connectionValue e = "true" <;>
      by_cases hk : keepAliveValue e = "true" <;>
    simp [hc, hk]

/-- Claim C8: both handlers are deterministic — two invocations on
identical inputs produce identical responses. -/
theorem C8_deterministic {α β : Type} (e₁ e₂ : Event) (c₁ c₂ : α) (r₁ r₂ : β)
    (he : e₁ = e₂) (hc : c₁ = c₂) (hr : r₁ = r₂) :
    handler e₁ c₁ = handler e₂ c₂ ∧ root r₁ = root r₂ := by
  subst he; subst hc; subst hr
  exact ⟨rfl, rfl⟩

/-- Witness for C8 on a concrete repeated invocation. -/
theorem C8_deterministic_witness :
    handler { queryStringParameters := Option.none, rest := [] } (0 : Nat) =
        handler { queryStringParameters := Option.none, rest := [] } (0 : Nat) ∧
      root "req" = root "req" :=
  C8_deterministic { queryStringParameters := Option.none, rest := [] }
    { queryStringParameters := Option.none, rest := [] } (0 : Nat) (0 : Nat)
    "req" "req" rfl rfl rfl

/-- Claim C9: noninterference of irrelevant inputs — two invocation
events whose resolved query parameters agree on the keys `connection`
and `keep-alive` produce identical results, regardless of any other
event fields, any other query-parameter keys, or the context argument,
which is never consulted (the two contexts may even have different
types). -/
theorem C9_noninterference {α β : Type} (e₁ e₂ : Event) (c₁ : α) (c₂ : β)
    (hconn : (resolvedParams e₁).lookup "connection" =
      (resolvedParams e₂).lookup "connection")
    (hka : (resolvedParams e₁).lookup "keep-alive" =
      (resolvedParams e₂).lookup "keep-alive") :
    handler e₁ c₁ = handler e₂ c₂ := by
  rw [handler_eq, handler_eq]
  simp only [connectionValue, keepAliveValue, hconn, hka]

/-- Witness for C9: an event with no query parameters, an empty
context, against an event with an unrelated query key, extra event
fields and a context of a different type. -/
theorem C9_noninterference_witness :
    handler { queryStringParameters := Option.none, rest := [] } (0 : Nat) =
      handler { queryStringParameters := Option.some (QVal.qdict [("other", "1")])
                rest := [("path", "x")] } "ctx" :=
  C9_noninterference _ _ _ _ (by decide) (by decide)

/-- Claim C6: for every invocation event whose `queryStringParameters`
field is absent, null, or a mapping of strings to strings, the dynamic
handler terminates normally with a success result (a result dict with
`statusCode` 200 and the fixed body) and never raises an error. -/
theorem C6_no_failure (h : Heap) (eventA : Addr) (ev : List (String × HVal))
    (hev : heapGet h eventA = Option.some (Obj.odict ev))
    (hq : ev.lookup "queryStringParameters" = Option.none ∨
      ev.lookup "queryStringParameters" = Option.some HVal.vnone ∨
      ∃ qa q, ev.lookup "queryStringParameters" = Option.some (HVal.vref qa) ∧
        heapGet h qa = Option.some (Obj.odict q) ∧
        ∀ p ∈ q, ∃ s : String, p.2 = HVal.vstr s) :
    ∃ h' resultA res,
      handlerH h eventA = Option.some (h', resultA) ∧
      heapGet h' resultA = Option.some (Obj.odict res) ∧
      res.lookup "statusCode" = Option.some (HVal.vint 200) ∧
      res.lookup "body" =
        Option.some (HVal.vstr "Successful request to Lambda without web adapter (python)") := by
  unfold handlerH
  rw [hev]
  dsimp only
  rcases hq with h1 | h1 | ⟨qa, q, h1, h2, h3⟩
  · rw [h1]
    dsimp only [Option.getD]
    have hne : (HVal.vref (freshAddr h) : HVal) ≠ HVal.vnone := by simp
    simp only [if_neg hne]
    rw [heapGet_cons_self]
    dsimp only
    refine ⟨_, _, _, rfl, heapGet_cons_self _ _ _, ?_, ?_⟩
    · rfl
    · rfl
  · rw [h1]
    dsimp only [Option.getD]
    simp only [eq_self_iff_true, if_true]
    rw [heapGet_cons_self]
    dsimp only
    refine ⟨_, _, _, rfl, heapGet_cons_self _ _ _, ?_, ?_⟩
    · rfl
    · rfl
  · rw [h1]
    dsimp only [Option.getD]
    have hne : (HVal.vref qa : HVal) ≠ HVal.vnone := by simp
    simp only [if_neg hne]
    rw [heapGet_cons_ne _ _ (ne_freshAddr h2), h2]
    dsimp only
    refine ⟨_, _, _, rfl, heapGet_cons_self _ _ _, ?_, ?_⟩
    · rfl
    · rfl

/-- Witness for C6 on a concrete heap holding one event dict with no
`queryStringParameters` field. -/
theorem C6_no_failure_witness :
    ∃ h' resultA res,
      handlerH [((0 : Addr), Obj.odict [])] 0 = Option.some (h', resultA) ∧
      heapGet h' resultA = Option.some (Obj.odict res) ∧
      res.lookup "statusCode" = Option.some (HVal.vint 200) ∧
      res.lookup "body" =
        Option.some (HVal.vstr "Successful request to Lambda without web adapter (python)") :=
  C6_no_failure [((0 : Addr), Obj.odict [])] 0 [] (by decide) (Or.inl rfl)

/-- Claim C10: the dynamic handler never mutates its input — every
object bound in the heap before the call (the event dict, its
`queryStringParameters` sub-dict, and anything else) is bound to the
same object after the call; the handler only reads from the input and
builds fresh dicts. -/
theorem C10_no_mutation (h : Heap) (eventA : Addr) (h' : Heap) (resultA : Addr)
    (hrun : handlerH h eventA = Option.some (h', resultA))
    (a : Addr) (o : Obj) (ho : heapGet h a = Option.some o) :
    heapGet h' a = Option.some o := by
  unfold handlerH at hrun
  rcases hev : heapGet h eventA with _ | ⟨⟨ev⟩⟩ <;> rw [hev] at hrun <;> dsimp only at hrun
  · exact Option.noConfusion hrun
  · have g1 : heapGet ((freshAddr h, Obj.odict []) :: h) a = Option.some o :=
      heapGet_alloc_preserve ho _
    rcases hq : List.lookup "queryStringParameters" ev with _ | v
    · rw [hq] at hrun
      dsimp only [Option.getD] at hrun
      have hne : (HVal.vref (freshAddr h) : HVal) ≠ HVal.vnone := by simp
      simp only [if_neg hne] at hrun
      rw [heapGet_cons_self] at hrun
      dsimp only at hrun
      rw [Option.some.injEq, Prod.mk.injEq] at hrun
      obtain ⟨hh, -⟩ := hrun
      subst hh
      exact heapGet_alloc_preserve
        (preserve_update_ite _ _ _ (ne_freshAddr g1)
          (preserve_update_ite _ _ _ (ne_freshAddr g1)
            (heapGet_alloc_preserve g1 _))) _
    · rcases v with _ | s | n | qa
      · rw [hq] at hrun
        dsimp only [Option.getD] at hrun
        simp only [eq_self_iff_true, if_true] at hrun
        rw [heapGet_cons_self] at hrun
        dsimp only at hrun
        rw [Option.some.injEq, Prod.mk.injEq] at hrun
        obtain ⟨hh, -⟩ := hrun
        subst hh
        have g2 : heapGet
            ((freshAddr ((freshAddr h, Obj.odict []) :: h), Obj.odict []) ::
              (freshAddr h, Obj.odict []) :: h) a = Option.some o :=
          heapGet_alloc_preserve g1 _
        exact heapGet_alloc_preserve
          (preserve_update_ite _ _ _ (ne_freshAddr g2)
            (preserve_update_ite _ _ _ (ne_freshAddr g2)
              (heapGet_alloc_preserve g2 _))) _
      · rw [hq] at hrun
        dsimp only [Option.getD] at hrun
        have hne : (HVal.vstr s : HVal) ≠ HVal.vnone := by simp
        simp only [if_neg hne] at hrun
        exact Option.noConfusion hrun
      · rw [hq] at hrun
        dsimp only [Option.getD] at hrun
        have hne : (HVal.vint n : HVal) ≠ HVal.vnone := by simp
        simp only [if_neg hne] at hrun
        exact Option.noConfusion hrun
      · rw [hq] at hrun
        dsimp only [Option.getD] at hrun
        have hne : (HVal.vref qa : HVal) ≠ HVal.vnone := by simp
        simp only [if_neg hne] at hrun
        by_cases hqa : qa = freshAddr h
        · subst hqa
          rw [heapGet_cons_self] at hrun
          dsimp only at hrun
          rw [Option.some.injEq, Prod.mk.injEq] at hrun
          obtain ⟨hh, -⟩ := hrun
          subst hh
          exact heapGet_alloc_preserve
            (preserve_update_ite _ _ _ (ne_freshAddr g1)
              (preserve_update_ite _ _ _ (ne_freshAddr g1)
                (heapGet_alloc_preserve g1 _))) _
        · rw [heapGet_cons_ne _ _ hqa] at hrun
          rcases hg : heapGet h qa with _ | ⟨⟨q⟩⟩ <;> rw [hg] at hrun <;> dsimp only at hrun
          · exact Option.noConfusion hrun
          · rw [Option.some.injEq, Prod.mk.injEq] at hrun
            obtain ⟨hh, -⟩ := hrun
            subst hh
            exact heapGet_alloc_preserve
              (preserve_update_ite _ _ _ (ne_freshAddr g1)
                (preserve_update_ite _ _ _ (ne_freshAddr g1)
                  (heapGet_alloc_preserve g1 _))) _

/-- Witness for C10: a concrete run of the heap handler on an event
dict with a null `queryStringParameters`, checking that the event
object at address 0 is untouched in the final heap. -/
theorem C10_no_mutation_witness :
    heapGet
      [((4 : Addr), Obj.odict
          [("statusCode", HVal.vint 200), ("headers", HVal.vref 3),
           ("body", HVal.vstr "Successful request to Lambda without web adapter (python)")]),
       (3, Obj.odict
          [("Connection", HVal.vstr "keep-alive"), ("Keep-Alive", HVal.vstr "timeout=72")]),
       (2, Obj.odict []), (1, Obj.odict []),
       (0, Obj.odict [("queryStringParameters", HVal.vnone)])] 0 =
      Option.some (Obj.odict [("queryStringParameters", HVal.vnone)]) :=
  C10_no_mutation [((0 : Addr), Obj.odict [("queryStringParameters", HVal.vnone)])] 0 _ 4
    (by decide) 0 _ (by decide)
